import Mathlib

/-!
Verification development for the ClarityAI repository: a shallow embedding of
the chat edge function (src/supabase/functions/chat/index.ts), the REST client
(src/frontend/src/services/api.ts), the chat hook state machine
(src/frontend/src/hooks/useChat.ts), the keyword-based therapist responder
(src/frontend/src/utils/therapistResponses.ts), and the message-count trigger
of the database migration
(src/frontend/supabase/migrations/20250625073920_broken_gate.sql),
with theorems about their behaviour.
-/

namespace ClarityAI

/-! ## Chat edge function — src/supabase/functions/chat/index.ts -/

/-- A row inserted into the `messages` table (the object literal passed to
`supabase.from('messages').insert({...})` in the edge function). -/
structure InsertRow where
  session_id : String
  user_id : String
  content : String
  sender : String
  message_type : String
deriving DecidableEq, Repr

/-- The parsed request body of POST /chat (`ChatMessage` in the edge
function); each field is `none` when the JSON key is absent. -/
structure ChatReqBody where
  content : Option String
  session_id : Option String
deriving DecidableEq, Repr

/-- JavaScript truthiness of an optional string field: `!body.content` is
true exactly when the field is absent (`undefined`) or the empty string. -/
def truthyStr : Option String → Bool
  | none => false
  | some s => !s.isEmpty

/-- The canned reply texts of `generateTherapyResponse` in the edge
function. -/
def therapyResponseTexts : List String :=
  ["I understand you're sharing something important with me. Can you tell me more about how that makes you feel?",
   "Thank you for opening up about that. What thoughts come to mind when you reflect on this experience?",
   "It sounds like you're going through something challenging. How are you coping with these feelings?",
   "I appreciate you sharing that with me. What would you like to explore further about this situation?",
   "That sounds significant. How has this been affecting your daily life?"]

/-- `generateTherapyResponse` picks `responses[Math.floor(Math.random()*responses.length)]`;
the random draw is modelled by the index `rand`. -/
def generateTherapyResponseContent (rand : Nat) : String :=
  therapyResponseTexts.getD (rand % therapyResponseTexts.length) ""

/-- Outcome of the edge function's `serve` handler: the HTTP status of the
response and the list of rows it inserted into the `messages` table, in
order. -/
structure ChatHandlerResult where
  status : Nat
  inserts : List InsertRow
deriving DecidableEq, Repr

/-- The `serve` handler of the chat edge function. `method` is the HTTP
method, `body` the parsed JSON body, `userId` the resolved user
(`'anonymous'` when no valid token), `rand` the random draw used by
`generateTherapyResponse`. A thrown error is the 400 branch. -/
def chatHandler (method : String) (body : ChatReqBody) (userId : String)
    (rand : Nat) : ChatHandlerResult :=
  if method = "OPTIONS" then ⟨200, []⟩
  else if method ≠ "POST" then ⟨400, []⟩
  else if !truthyStr body.content || !truthyStr body.session_id then ⟨400, []⟩
  else
    let sid := body.session_id.getD ""
    let userRow : InsertRow :=
      ⟨sid, userId, body.content.getD "", "user", "text"⟩
    let aiRow : InsertRow :=
      ⟨sid, userId, generateTherapyResponseContent rand, "ai", "text"⟩
    ⟨200, [userRow, aiRow]⟩

/-- The JSON body of the edge function's error response (its catch branch):
it carries the keys `error` and `timestamp`, and no `detail` key. -/
structure ErrBodyJson where
  detail : Option String
  error : Option String
  timestamp : Option String
deriving DecidableEq, Repr

/-- The error body built by the edge function's catch branch:
`{ error: error.message, timestamp: new Date().toISOString() }`. -/
def chatHandlerErrorBody (msg ts : String) : ErrBodyJson :=
  ⟨none, some msg, some ts⟩

/-! ## REST client — src/frontend/src/services/api.ts -/

/-- The `ChatResponse` payload returned by POST /chat, reduced to the fields
the claims mention. -/
structure ChatRespPayload where
  content : String
  session_id : String
  timestamp : String
deriving DecidableEq, Repr

/-- `ApiService.sendMessage` after the fetch resolved: on a non-ok response
it parses the body as `ApiError` and throws
`new Error(error.detail || 'Failed to send message')`; on an ok response it
resolves with the parsed `ChatResponse`. `detail` is the `detail` field of
the parsed error body (absent keys are `none`). -/
def apiSendMessage (ok : Bool) (detail : Option String)
    (data : ChatRespPayload) : Except String ChatRespPayload :=
  if ok then .ok data else .error (detail.getD "Failed to send message")

/-- A row of the history returned by GET /session/{id}/history. -/
structure HistRow where
  content : String
  ai_response : Option String
  session_id : String
  created_at : Nat
deriving DecidableEq, Repr

/-- `ApiService.getSessionHistory` after the fetch resolved: a non-ok
response throws, the catch returns `[]`; an ok response returns
`data.history || []` (absent key modelled as `none`). -/
def apiGetSessionHistory (ok : Bool) (history : Option (List HistRow)) :
    List HistRow :=
  if ok then history.getD [] else []

/-- Modelled from the spec: the FastAPI backend's GET /session/{id}/history
handler (its Python source is not in the repository; only the backend README
documents the route) — per the spec, "session history returns messages in
creation order", so the handler returns the session's rows sorted ascending
by creation timestamp. -/
def backendSessionHistory (sid : String) (rows : List HistRow) : List HistRow :=
  List.insertionSort (fun a b => a.created_at ≤ b.created_at)
    (rows.filter (fun r => r.session_id = sid))

instance : IsTotal HistRow (fun a b => a.created_at ≤ b.created_at) :=
  ⟨fun a b => Nat.le_total a.created_at b.created_at⟩

instance : IsTrans HistRow (fun a b => a.created_at ≤ b.created_at) :=
  ⟨fun _ _ _ hab hbc => Nat.le_trans hab hbc⟩

/-! ## WebSocket reconnection — src/frontend/src/hooks/useChat.ts -/

/-- `maxReconnectAttempts` in the useChat hook. -/
def maxReconnectAttempts : Nat := 5

/-- What `attemptReconnect` does after incrementing or refusing: schedule a
`connectWebSocket` after `delayMs`, or give up and call `onError` with
`errMsg`. -/
inductive ReconnectOutcome where
  | scheduled (delayMs : Nat)
  | giveUp (errMsg : String)
deriving DecidableEq, Repr

/-- `attemptReconnect`: given the current value of `reconnectAttempts`, it
either increments the counter and schedules a reconnect after
`Math.min(1000 * Math.pow(2, reconnectAttempts.current), 30000)` ms (with
the already-incremented counter), or — once the budget is exhausted —
leaves the counter alone and reports the connection lost. Returns the new
counter value and the outcome. -/
def attemptReconnect (attempts : Nat) : Nat × ReconnectOutcome :=
  if attempts < maxReconnectAttempts then
    let next := attempts + 1
    (next, .scheduled (min (1000 * 2 ^ next) 30000))
  else
    (attempts, .giveUp "Connection lost. Please refresh the page.")

/-! ## Chat hook state machine — src/frontend/src/hooks/useChat.ts -/

/-- The sender of a hook-level `Message`. -/
inductive Sender where
  | user
  | ai
deriving DecidableEq, Repr

/-- The `reactions` counters of a hook-level `Message` (`Int`, since the
decrement in `addReaction` is unguarded). -/
structure Reactions where
  helpful : Int
  insightful : Int
  supportive : Int
deriving DecidableEq, Repr

/-- The reaction kinds of `addReaction`. -/
inductive ReactionType where
  | helpful
  | insightful
  | supportive
deriving DecidableEq, Repr

/-- A hook-level `Message` (the `Message` interface of useChat.ts), reduced
to the fields the claims mention; `reactions` is `none` when the field is
absent (user messages are created without it). -/
structure Msg where
  id : String
  content : String
  sender : Sender
  reactions : Option Reactions
  userReaction : Option ReactionType
deriving DecidableEq, Repr

/-- The state of the useChat hook that the claims are about. -/
structure ChatState where
  messages : List Msg
  isTyping : Bool
  messageCount : Nat
deriving DecidableEq, Repr

/-- The initial hook state: `useState<Message[]>([])`, `useState(false)`,
`useState(0)`. -/
def initialChatState : ChatState := ⟨[], false, 0⟩

/-- Externally visible effects of a hook step: a payload sent over the
WebSocket, a call to `apiService.sendMessage`, or an invocation of the
`onError` callback. -/
inductive Effect where
  | wsSend (content : String)
  | restCall (content : String) (sessionId : String)
  | onError (msg : String)
deriving DecidableEq, Repr

/-- An incoming WebSocket JSON message as `handleWebSocketMessage` reads it:
`type` is the dispatch tag; `dataContent` the `data.data` payload's content
(read in the `chat_response` branch), `isTyping` the flag read in the
`typing` branch, `message` the text read in the `error` branch. -/
structure WsData where
  type : String
  dataContent : String
  isTyping : Bool
  message : String
deriving DecidableEq, Repr

/-- The AI message built in the `chat_response` branch of
`handleWebSocketMessage`: spread of the payload plus fresh id, sender 'ai'
and zeroed reactions. -/
def aiMsgOfPayload (newId content : String) : Msg :=
  ⟨newId, content, .ai, some ⟨0, 0, 0⟩, none⟩

/-- `handleWebSocketMessage`: dispatch on `data.type`. Returns the new hook
state and the emitted effects. -/
def handleWebSocketMessage (s : ChatState) (d : WsData) (newId : String) :
    ChatState × List Effect :=
  if d.type = "chat_response" then
    ({ s with
        messages := s.messages ++ [aiMsgOfPayload newId d.dataContent],
        isTyping := false,
        messageCount := s.messageCount + 1 }, [])
  else if d.type = "typing" then
    ({ s with isTyping := d.isTyping }, [])
  else if d.type = "error" then
    ({ s with isTyping := false }, [.onError d.message])
  else (s, [])

/-- A history item as `initializeChat` reads it from
`apiService.getSessionHistory`. -/
structure HistItem where
  content : String
  ai_response : Option String
  timestamp : String
deriving DecidableEq, Repr

/-- JavaScript `s.trim()`: strip leading and trailing whitespace. -/
def jsTrim (s : String) : String :=
  String.mk
    (((s.toList.dropWhile Char.isWhitespace).reverse.dropWhile
        Char.isWhitespace).reverse)

/-- JavaScript `a || b` on an optional string: the default is used when the
field is absent or the empty string. -/
def jsOrStr : Option String → String → String
  | none, b => b
  | some a, b => if a.isEmpty then b else a

/-- One formatted history message of `initializeChat`
(`item.ai_response || item.content`, sender 'ai', id `history-<index>`,
zeroed reactions). -/
def formatHistoryItem (idx : Nat) (item : HistItem) : Msg :=
  ⟨"history-" ++ toString idx, jsOrStr item.ai_response item.content, .ai,
    some ⟨0, 0, 0⟩, none⟩

/-- The history-loading part of `initializeChat`: when the fetched history
is nonempty it replaces `messages` with the formatted history and sets
`messageCount` to the history's length; otherwise it changes nothing. -/
def loadHistoryStep (s : ChatState) (history : List HistItem) :
    ChatState × List Effect :=
  if history.length > 0 then
    ({ s with
        messages := history.enum.map (fun p => formatHistoryItem p.1 p.2),
        messageCount := history.length }, [])
  else (s, [])

/-- `sendMessage` of the hook: a blank message (`!content.trim()`) returns
immediately; otherwise the user message is appended, the count incremented
and typing set, then the content goes over the WebSocket when it is OPEN,
else through the REST fallback, whose outcome `restResult` either appends
the AI response or lands in the catch (`none` models a thrown non-Error). -/
def sendMessageStep (s : ChatState) (content sessionId : String)
    (wsOpen : Bool) (restResult : Except (Option String) ChatRespPayload)
    (newId newId2 : String) : ChatState × List Effect :=
  if jsTrim content = "" then (s, [])
  else
    let userMsg : Msg := ⟨newId, content, .user, none, none⟩
    let s1 := { s with
        messages := s.messages ++ [userMsg],
        messageCount := s.messageCount + 1,
        isTyping := true }
    if wsOpen then (s1, [.wsSend content])
    else
      match restResult with
      | .ok resp =>
          let aiMsg : Msg := ⟨newId2, resp.content, .ai, some ⟨0, 0, 0⟩, none⟩
          ({ s1 with
              messages := s1.messages ++ [aiMsg],
              messageCount := s1.messageCount + 1,
              isTyping := false },
           [.restCall content sessionId])
      | .error e =>
          ({ s1 with isTyping := false },
           [.restCall content sessionId,
            .onError (e.getD "Failed to send message")])

/-- Decrement one reaction counter (`newReactions[msg.userReaction]--`). -/
def decReaction (r : Reactions) : ReactionType → Reactions
  | .helpful => { r with helpful := r.helpful - 1 }
  | .insightful => { r with insightful := r.insightful - 1 }
  | .supportive => { r with supportive := r.supportive - 1 }

/-- Increment one reaction counter (`newReactions[reactionType]++`). -/
def incReaction (r : Reactions) : ReactionType → Reactions
  | .helpful => { r with helpful := r.helpful + 1 }
  | .insightful => { r with insightful := r.insightful + 1 }
  | .supportive => { r with supportive := r.supportive + 1 }

/-- The per-message update of `addReaction`. -/
def addReactionMsg (messageId : String) (t : ReactionType) (m : Msg) : Msg :=
  if m.id = messageId then
    match m.reactions with
    | some r =>
        let r1 := match m.userReaction with
          | some u => decReaction r u
          | none => r
        if m.userReaction ≠ some t then
          { m with reactions := some (incReaction r1 t), userReaction := some t }
        else
          { m with reactions := some r1, userReaction := none }
    | none => m
  else m

/-- `addReaction` of the hook: map the update over `messages`. -/
def addReactionStep (s : ChatState) (messageId : String) (t : ReactionType) :
    ChatState × List Effect :=
  ({ s with messages := s.messages.map (addReactionMsg messageId t) }, [])

/-- One observable operation of the useChat hook. -/
inductive ChatOp where
  | loadHistory (history : List HistItem)
  | wsMessage (d : WsData) (newId : String)
  | send (content sessionId : String) (wsOpen : Bool)
      (restResult : Except (Option String) ChatRespPayload)
      (newId newId2 : String)
  | react (messageId : String) (t : ReactionType)

/-- The hook as a step function over its operations. -/
def chatStep (s : ChatState) : ChatOp → ChatState × List Effect
  | .loadHistory history => loadHistoryStep s history
  | .wsMessage d newId => handleWebSocketMessage s d newId
  | .send content sessionId wsOpen restResult newId newId2 =>
      sendMessageStep s content sessionId wsOpen restResult newId newId2
  | .react messageId t => addReactionStep s messageId t

/-! ## Keyword therapist — src/frontend/src/utils/therapistResponses.ts -/

/-- JavaScript `input.includes(keyword)`: substring containment. -/
def jsIncludes (s k : String) : Bool := decide (k.toList <:+: s.toList)

/-- JavaScript `s.toLowerCase()` on the character ranges the keyword lists
use: lowercase every character. -/
def jsToLower (s : String) : String := String.mk (s.toList.map Char.toLower)

def crisisKeywords : List String :=
  ["suicide", "kill", "hurt myself", "end it all", "die", "worthless", "hopeless"]

def anxietyKeywords : List String :=
  ["anxiety", "anxious", "panic", "worry", "nervous", "stressed"]

def depressionKeywords : List String :=
  ["depressed", "sad", "hopeless", "empty", "lonely", "worthless"]

def copingKeywords : List String :=
  ["meditation", "exercise", "therapy", "support", "help", "better"]

/-- The crisis-intervention reply of `generateTherapistResponse`. -/
def crisisResponse : String :=
  "I'm really concerned about what you're sharing with me. Your safety is my top priority. If you're having thoughts of hurting yourself, please reach out to a crisis helpline immediately: National Suicide Prevention Lifeline (988) or Crisis Text Line (text HOME to 741741). Are you safe right now?"

/-- The anxiety reply of `generateTherapistResponse`. -/
def anxietyResponse : String :=
  "Anxiety can feel overwhelming, but you're not alone in this experience. Many people find relief through grounding techniques like deep breathing or the 5-4-3-2-1 method. What physical sensations do you notice when anxiety arises?"

/-- The depression reply of `generateTherapistResponse`. -/
def depressionResponse : String :=
  "Depression can make everything feel heavier and more difficult. I want you to know that these feelings, while valid and real, don't define your worth. What's one small thing that has brought you even a moment of peace recently?"

/-- The `copingResponses` pool. -/
def copingResponses : List String :=
  ["Those are healthy coping strategies. It's wonderful that you're aware of what helps you. How can we build on these strengths?",
   "I'm impressed by your resilience. These tools you've developed show real wisdom. Which of these feels most accessible to you right now?",
   "It sounds like you have some good insights into what works for you. That self-awareness is a real asset in your healing journey."]

/-- The default `therapistResponses` pool. -/
def therapistResponsePool : List String :=
  ["I hear you, and I want you to know that what you're feeling is completely valid. Can you tell me more about what's contributing to these feelings?",
   "That sounds really challenging. You've shown a lot of courage by sharing this with me. What has helped you cope with similar situations in the past?",
   "I appreciate you opening up about this. It takes strength to acknowledge these feelings. How long have you been experiencing this?",
   "Thank you for trusting me with this. Your feelings are important and deserve to be heard. What would it look like if this situation improved?",
   "I can sense this is weighing heavily on you. You're not alone in feeling this way. What kind of support do you feel you need right now?",
   "It sounds like you're going through a really difficult time. I'm here to support you through this. What's one small step you feel ready to take?",
   "Your perspective is valuable, and I'm glad you shared it with me. How has this been affecting other areas of your life?",
   "I can hear the pain in your words, and I want you to know that healing is possible. What does self-care look like for you?",
   "That must feel overwhelming. You're taking an important step by talking about it. What would you like to focus on in our conversation today?",
   "I notice you're being really thoughtful about this. Sometimes our emotions can feel complex. Can you help me understand what you're experiencing right now?"]

/-- `generateTherapistResponse`: lowercase the input, then dispatch on the
keyword lists in order (crisis, anxiety, depression, coping, default); the
two `Math.random()` draws are modelled by the index `rand`; the
conversation-history argument is accepted and ignored, as in the source. -/
def generateTherapistResponse (userInput : String)
    (conversationHistory : List Msg) (rand : Nat) : String :=
  let _ := conversationHistory
  let input := jsToLower userInput
  if crisisKeywords.any (fun k => jsIncludes input k) then
    crisisResponse
  else if anxietyKeywords.any (fun k => jsIncludes input k) then
    anxietyResponse
  else if depressionKeywords.any (fun k => jsIncludes input k) then
    depressionResponse
  else if copingKeywords.any (fun k => jsIncludes input k) then
    copingResponses.getD (rand % copingResponses.length) ""
  else
    therapistResponsePool.getD (rand % therapistResponsePool.length) ""

/-! ## Message-count trigger —
src/frontend/supabase/migrations/20250625073920_broken_gate.sql -/

/-- A `chat_sessions` row, reduced to the columns the trigger touches. -/
structure SessionRow where
  id : String
  message_count : Nat
  updated_at : Nat
deriving DecidableEq, Repr

/-- A `chat_messages` row. -/
structure MessageRow where
  id : String
  session_id : String
  content : String
  sender : String
  created_at : Nat
deriving DecidableEq, Repr

/-- The two tables the trigger relates. -/
structure ChatDb where
  chat_sessions : List SessionRow
  chat_messages : List MessageRow
deriving DecidableEq, Repr

/-- `SELECT COUNT(*) FROM chat_messages WHERE session_id = sid`. -/
def actualMessageCount (db : ChatDb) (sid : String) : Nat :=
  (db.chat_messages.filter (fun m => m.session_id = sid)).length

/-- The trigger function `update_session_message_count`: recount the
messages of `NEW.session_id` and write the count and `updated_at = now()`
into that session's row. -/
def update_session_message_count (db : ChatDb) (newSessionId : String)
    (now : Nat) : ChatDb :=
  { db with chat_sessions := db.chat_sessions.map fun s =>
      if s.id = newSessionId then
        { s with message_count := actualMessageCount db newSessionId,
                 updated_at := now }
      else s }

/-- An INSERT into `chat_messages` followed by the AFTER INSERT trigger
`update_message_count_trigger`. -/
def insertChatMessage (db : ChatDb) (m : MessageRow) (now : Nat) : ChatDb :=
  let afterInsert : ChatDb :=
    { db with chat_messages := db.chat_messages ++ [m] }
  update_session_message_count afterInsert m.session_id now

/-- A DELETE from `chat_messages`: the migration declares the trigger
`AFTER INSERT ON chat_messages` only, so no trigger fires here. -/
def deleteChatMessage (db : ChatDb) (messageId : String) : ChatDb :=
  { db with chat_messages :=
      db.chat_messages.filter (fun m => !(m.id = messageId)) }

/-- The stored counter of a session, `none` when the session is absent. -/
def storedMessageCount (db : ChatDb) (sid : String) : Option Nat :=
  (db.chat_sessions.find? (fun s => s.id = sid)).map (·.message_count)

/-! ## Theorems -/

/-- C1: for every successfully handled POST /chat request — a POST whose
body carries a truthy `content` and a truthy `session_id` — the chat edge
function inserts into the `messages` table exactly one row with sender
'user' and exactly one row with sender 'ai', and no other rows, and
responds with status 200. -/
theorem chat_persists_one_user_one_ai_row (method : String)
    (body : ChatReqBody) (userId : String) (rand : Nat)
    (hm : method = "POST")
    (hc : truthyStr body.content = true)
    (hs : truthyStr body.session_id = true) :
    (chatHandler method body userId rand).status = 200 ∧
    ((chatHandler method body userId rand).inserts.filter
        (fun r => r.sender = "user")).length = 1 ∧
    ((chatHandler method body userId rand).inserts.filter
        (fun r => r.sender = "ai")).length = 1 ∧
    (chatHandler method body userId rand).inserts.length = 2 := by
  subst hm
  simp [chatHandler, hc, hs]

/-- Witness for C1: the theorem at a concrete valid request. -/
theorem chat_persists_one_user_one_ai_row_witness :
    (chatHandler "POST" ⟨some "hello", some "s1"⟩ "anonymous" 0).status = 200 ∧
    ((chatHandler "POST" ⟨some "hello", some "s1"⟩ "anonymous" 0).inserts.filter
        (fun r => r.sender = "user")).length = 1 ∧
    ((chatHandler "POST" ⟨some "hello", some "s1"⟩ "anonymous" 0).inserts.filter
        (fun r => r.sender = "ai")).length = 1 ∧
    (chatHandler "POST" ⟨some "hello", some "s1"⟩ "anonymous" 0).inserts.length = 2 :=
  chat_persists_one_user_one_ai_row "POST" ⟨some "hello", some "s1"⟩
    "anonymous" 0 rfl (by decide) (by decide)

/-- C2: once the reconnect-attempt counter has reached
`maxReconnectAttempts` (5), a further WebSocket close never schedules
another connection attempt: `attemptReconnect` leaves the counter unchanged
and gives up with the onError message 'Connection lost. Please refresh the
page.'. -/
theorem reconnect_stops_after_five (attempts : Nat)
    (h : maxReconnectAttempts ≤ attempts) :
    attemptReconnect attempts =
      (attempts, .giveUp "Connection lost. Please refresh the page.") := by
  simp [attemptReconnect, Nat.not_lt.mpr h]

/-- Witness for C2: the theorem at a counter that has reached 5. -/
theorem reconnect_stops_after_five_witness :
    attemptReconnect 5 =
      (5, .giveUp "Connection lost. Please refresh the page.") :=
  reconnect_stops_after_five 5 (by decide)

/-- Counterexample for C3: the very first retry (counter 0 before the
close) is scheduled after 2000 ms, not after 1000 ms as the claim states,
because the counter is incremented before the delay is computed. -/
theorem first_reconnect_delay_cex :
    (attemptReconnect 0).2 = ReconnectOutcome.scheduled 2000 ∧
    (attemptReconnect 0).2 ≠ ReconnectOutcome.scheduled 1000 := by
  decide

/-- C3 (amended): for every reconnect attempt n (1 ≤ n ≤ 5), i.e. from a
counter value of n−1, the scheduled delay is min(1000·2^n, 30000) ms — so
the very first retry waits 2 seconds, not 1. -/
theorem reconnect_delay_formula (n : Nat) (h1 : 1 ≤ n) (h2 : n ≤ 5) :
    attemptReconnect (n - 1) =
      (n, .scheduled (min (1000 * 2 ^ n) 30000)) := by
  interval_cases n <;> decide

/-- Witness for C3: the theorem at the first attempt. -/
theorem reconnect_delay_formula_witness :
    attemptReconnect (1 - 1) =
      (1, .scheduled (min (1000 * 2 ^ 1) 30000)) :=
  reconnect_delay_formula 1 (by decide) (by decide)

/-- Counterexample for C4: the edge function's error body carries no
`detail` key at all (its keys are `error` and `timestamp`), refuting "the
error body contains a `detail` string" at the concrete error 'Method not
allowed'. -/
theorem chat_error_body_has_no_detail_cex :
    ¬ ∃ s, (chatHandlerErrorBody "Method not allowed"
        "2025-01-01T00:00:00.000Z").detail = some s := by
  rintro ⟨s, h⟩
  simp [chatHandlerErrorBody] at h

/-- C4 (amended): the edge function's error body carries an `error` string
and no `detail` string; since `detail` is absent, the client's sendMessage
rejects with 'Failed to send message'; and on any non-ok response
sendMessage rejects (with the detail when present, the fallback otherwise)
and never resolves with a ChatResponse. -/
theorem send_message_error_fallback (msg ts : String) (d : ChatRespPayload)
    (detail : Option String) :
    (chatHandlerErrorBody msg ts).error = some msg ∧
    (chatHandlerErrorBody msg ts).detail = none ∧
    apiSendMessage false (chatHandlerErrorBody msg ts).detail d =
      .error "Failed to send message" ∧
    apiSendMessage false detail d =
      .error (detail.getD "Failed to send message") :=
  ⟨rfl, rfl, rfl, rfl⟩

/-- C5: `handleWebSocketMessage` dispatches on the message tag: a
`chat_response` appends exactly one AI message, clears the typing indicator
and increments the count, with no effect; a `typing` message sets the
typing indicator to its flag and changes nothing else; an `error` message
emits onError with the message text and clears the typing indicator,
touching neither messages nor count; any other tag changes no state and
emits nothing. -/
theorem ws_message_dispatch (s : ChatState) (d : WsData) (newId : String) :
    (d.type = "chat_response" →
      handleWebSocketMessage s d newId =
        ({ s with
            messages := s.messages ++ [aiMsgOfPayload newId d.dataContent],
            isTyping := false,
            messageCount := s.messageCount + 1 }, [])) ∧
    (d.type = "typing" →
      handleWebSocketMessage s d newId =
        ({ s with isTyping := d.isTyping }, [])) ∧
    (d.type = "error" →
      handleWebSocketMessage s d newId =
        ({ s with isTyping := false }, [.onError d.message])) ∧
    (d.type ≠ "chat_response" → d.type ≠ "typing" → d.type ≠ "error" →
      handleWebSocketMessage s d newId = (s, [])) := by
  refine ⟨fun h => ?_, fun h => ?_, fun h => ?_, fun h1 h2 h3 => ?_⟩ <;>
    simp [handleWebSocketMessage, *]

/-- Witness for C5: the theorem's chat_response branch at a concrete
message. -/
theorem ws_message_dispatch_witness :
    handleWebSocketMessage initialChatState
        ⟨"chat_response", "hello", false, ""⟩ "m1" =
      ({ initialChatState with
          messages := initialChatState.messages ++ [aiMsgOfPayload "m1" "hello"],
          isTyping := false,
          messageCount := initialChatState.messageCount + 1 }, []) :=
  (ws_message_dispatch initialChatState
    ⟨"chat_response", "hello", false, ""⟩ "m1").1 rfl

/-- C6: the history endpoint returns the session's messages in creation
order — the result is sorted ascending by `created_at` and is a permutation
of the session's rows — and the client's getSessionHistory returns the
received list unchanged and in the same order when the response is ok. -/
theorem session_history_creation_order (sid : String) (rows : List HistRow)
    (h : List HistRow) :
    (backendSessionHistory sid rows).Sorted
        (fun a b => a.created_at ≤ b.created_at) ∧
    List.Perm (backendSessionHistory sid rows)
        (rows.filter (fun r => r.session_id = sid)) ∧
    apiGetSessionHistory true (some h) = h :=
  ⟨List.sorted_insertionSort _ _, List.perm_insertionSort _ _, rfl⟩

/-- Counterexample for C7: insert one message into session "s" (the
trigger sets the counter to 1), then delete it — no trigger fires on
delete, so the stored counter stays 1 while the table holds 0 rows. -/
theorem message_count_stale_after_delete_cex :
    storedMessageCount
        (deleteChatMessage
          (insertChatMessage ⟨[⟨"s", 0, 0⟩], []⟩ ⟨"m1", "s", "hi", "user", 1⟩ 1)
          "m1") "s" = some 1 ∧
    actualMessageCount
        (deleteChatMessage
          (insertChatMessage ⟨[⟨"s", 0, 0⟩], []⟩ ⟨"m1", "s", "hi", "user", 1⟩ 1)
          "m1") "s" = 0 := by
  decide

/-- C7 (amended): the trigger `update_message_count_trigger` is declared
AFTER INSERT only, so after every insert into `chat_messages` the inserted
message's session has `message_count` equal to the number of
`chat_messages` rows for that session; deletes fire no trigger and can
leave the counter stale. -/
theorem message_count_correct_after_insert (db : ChatDb) (m : MessageRow)
    (now : Nat) (s : SessionRow)
    (hs : s ∈ (insertChatMessage db m now).chat_sessions)
    (hid : s.id = m.session_id) :
    s.message_count =
      actualMessageCount (insertChatMessage db m now) m.session_id := by
  simp only [insertChatMessage, update_session_message_count] at hs ⊢
  obtain ⟨t, ht, heq⟩ := List.mem_map.mp hs
  by_cases h : t.id = m.session_id
  · rw [if_pos h] at heq
    subst heq
    rfl
  · rw [if_neg h] at heq
    subst heq
    exact absurd hid h

/-- Witness for C7: the theorem after inserting one message into an
existing session. -/
theorem message_count_correct_after_insert_witness :
    (⟨"s", 1, 7⟩ : SessionRow).message_count =
      actualMessageCount
        (insertChatMessage ⟨[⟨"s", 0, 0⟩], []⟩ ⟨"m1", "s", "hi", "user", 1⟩ 7)
        "s" :=
  message_count_correct_after_insert ⟨[⟨"s", 0, 0⟩], []⟩
    ⟨"m1", "s", "hi", "user", 1⟩ 7 ⟨"s", 1, 7⟩ (by decide) rfl

/-- C8: whenever the lowercased user input contains any crisis keyword,
`generateTherapistResponse` returns the crisis-intervention response
referring to the 988 lifeline, regardless of the conversation history and
of the random draw (and hence of any other keywords the input contains). -/
theorem crisis_keywords_force_crisis_response (userInput : String)
    (hist : List Msg) (rand : Nat)
    (h : crisisKeywords.any (fun k => jsIncludes (jsToLower userInput) k) = true) :
    generateTherapistResponse userInput hist rand = crisisResponse := by
  simp [generateTherapistResponse, h]

/-- Witness for C8: the theorem on an input containing both a crisis
keyword and an anxiety keyword. -/
theorem crisis_keywords_force_crisis_response_witness :
    generateTherapistResponse "I am anxious and feel Worthless" [] 3 =
      crisisResponse :=
  crisis_keywords_force_crisis_response "I am anxious and feel Worthless" [] 3
    (by decide)

/-- C9: the useChat hook preserves messageCount = messages.length: it holds
in the initial state, and every hook operation — loading history, sending a
message over the WebSocket or the REST fallback, receiving a WebSocket
message, adding a reaction — preserves it. -/
theorem chat_hook_count_invariant (s : ChatState) (op : ChatOp)
    (h : s.messageCount = s.messages.length) :
    initialChatState.messageCount = initialChatState.messages.length ∧
    (chatStep s op).1.messageCount = (chatStep s op).1.messages.length := by
  refine ⟨rfl, ?_⟩
  cases op with
  | loadHistory history =>
      simp only [chatStep, loadHistoryStep]
      split
      · simp
      · exact h
  | wsMessage d newId =>
      simp only [chatStep, handleWebSocketMessage]
      split
      · simp [h]
      · split
        · exact h
        · split
          · exact h
          · exact h
  | send content sessionId wsOpen restResult newId newId2 =>
      simp only [chatStep, sendMessageStep]
      split
      · exact h
      · split
        · simp [h]
        · split
          · simp [h]
          · simp [h]
  | react messageId t =>
      simp only [chatStep, addReactionStep]
      simpa using h

/-- Witness for C9: the theorem at the initial state and a concrete REST
fallback send. -/
theorem chat_hook_count_invariant_witness :
    initialChatState.messageCount = initialChatState.messages.length ∧
    (chatStep initialChatState
        (.send "hello" "s1" false (.ok ⟨"hi", "s1", "t"⟩) "1" "2")).1.messageCount =
      (chatStep initialChatState
        (.send "hello" "s1" false (.ok ⟨"hi", "s1", "t"⟩) "1" "2")).1.messages.length :=
  chat_hook_count_invariant initialChatState
    (.send "hello" "s1" false (.ok ⟨"hi", "s1", "t"⟩) "1" "2") rfl

/-- C10: sending a message whose content trims to the empty string is a
no-op: the hook state (messages, messageCount, isTyping) is unchanged and
no effect — neither a WebSocket send nor a REST call — is emitted. -/
theorem blank_send_is_noop (s : ChatState) (content sessionId : String)
    (wsOpen : Bool) (restResult : Except (Option String) ChatRespPayload)
    (newId newId2 : String) (h : jsTrim content = "") :
    chatStep s (.send content sessionId wsOpen restResult newId newId2) =
      (s, []) := by
  simp [chatStep, sendMessageStep, h]

/-- Witness for C10: the theorem on a whitespace-only message. -/
theorem blank_send_is_noop_witness :
    chatStep initialChatState (.send "   " "s1" true (.ok ⟨"hi", "s1", "t"⟩) "1" "2") =
      (initialChatState, []) :=
  blank_send_is_noop initialChatState "   " "s1" true (.ok ⟨"hi", "s1", "t"⟩)
    "1" "2" (by decide)

end ClarityAI
